import Mathlib

/-!
Verification of the FFmpeg librtmfp adapter (libavformat/librtmfp.c).

The adapter maps the generic URLProtocol surface (open/read/write/close) onto
the external librtmfp engine.  The engine's calls (RTMFP_Connect,
RTMFP_WaitForEvent, RTMFP_Connect2Group, ...) are modelled by an oracle
`Engine` supplying their results; the adapter functions are translated
statement by statement from the C source, returning both their C return value
and the ordered list of engine calls they issued.
-/

namespace LibRTMFP

/-- AV_LOG_FATAL from libavutil/log.h. -/
def AV_LOG_FATAL : Int := 8

/-- AV_LOG_ERROR from libavutil/log.h. -/
def AV_LOG_ERROR : Int := 16

/-- AV_LOG_WARNING from libavutil/log.h. -/
def AV_LOG_WARNING : Int := 24

/-- AV_LOG_INFO from libavutil/log.h. -/
def AV_LOG_INFO : Int := 32

/-- AV_LOG_VERBOSE from libavutil/log.h. -/
def AV_LOG_VERBOSE : Int := 40

/-- AV_LOG_DEBUG from libavutil/log.h. -/
def AV_LOG_DEBUG : Int := 48

/-- AV_LOG_TRACE from libavutil/log.h. -/
def AV_LOG_TRACE : Int := 56

/-- POSIX errno value 5 (I/O error), the argument of AVERROR in
rtmfp_read/rtmfp_write. -/
def eioErrno : Int := 5

/-- AVERROR(e) = -e on POSIX systems (libavutil/error.h). -/
def AVERROR (e : Int) : Int := -e

/-- AVIO_FLAG_WRITE from libavformat/avio.h. -/
def AVIO_FLAG_WRITE : Nat := 2

/-- The RTMFP_CONNECTED event mask from librtmfp.h (value opaque to the
adapter; any fixed nonzero value models it). -/
def RTMFP_CONNECTED : Nat := 1

/-- RTMFPConfig: the per-session configuration struct of librtmfp.h, with the
fields the adapter touches.  Strings are C pointers, hence `Option String`. -/
structure RTMFPConfig where
  isBlocking : Int
  swfUrl : Option String
  app : Option String
  pageUrl : Option String
  flashVer : Option String
  host : Option String
  hostIPv6 : Option String
deriving Repr, DecidableEq

/-- The zeroed RTMFPConfig produced by RTMFP_Init. -/
def RTMFPConfig.init : RTMFPConfig :=
  ⟨0, none, none, none, none, none, none⟩

/-- RTMFPGroupConfig: the NetGroup configuration struct of librtmfp.h, with
the fields the adapter sets at librtmfp.c lines 154-160. -/
structure RTMFPGroupConfig where
  netGroup : Option String
  availabilityUpdatePeriod : Nat
  windowDuration : Nat
  pushLimit : Nat
  isPublisher : Bool
  isBlocking : Int
  disableRateControl : Bool
deriving Repr, DecidableEq

/-- The zeroed RTMFPGroupConfig produced by RTMFP_Init. -/
def RTMFPGroupConfig.init : RTMFPGroupConfig :=
  ⟨none, 0, 0, 0, false, 0, false⟩

/-- LibRTMFPContext from librtmfp.c lines 37-67.  AV_OPT_TYPE_BOOL options
(range 0..1) are Bool, AV_OPT_TYPE_STRING options (C char pointers) are
Option String, unsigned ints are Nat. -/
structure LibRTMFPContext where
  rtmfp : RTMFPConfig
  id : Nat
  audiounbuffered : Bool
  videounbuffered : Bool
  p2ppublishing : Bool
  peerid : Option String
  publication : String
  streamid : Nat
  swfurl : Option String
  app : Option String
  pageurl : Option String
  flashver : Option String
  host : Option String
  hostipv6 : Option String
  socketreceivesize : Int
  socketsendsize : Int
  group : RTMFPGroupConfig
  netgroup : Option String
  updateperiod : Nat
  windowduration : Nat
  pushlimit : Nat
  fallbackurl : Option String
  fallbacktimeout : Nat
  disableratectl : Bool
deriving Repr, DecidableEq

/-- The part of URLContext the adapter reads or writes besides priv_data:
the is_streamed flag set on a successful open. -/
structure URLContext where
  is_streamed : Int
deriving Repr, DecidableEq

/-- One call into the librtmfp engine, with the arguments the adapter passed
(callback registrations recorded without their function-pointer arguments). -/
inductive EngineCall where
  | setIntParameter (name : String) (value : Int)
  | logSetCallback
  | interruptSetCallback
  | getPublicationAndUrl (uri : String)
  | connect (uri : String)
  | waitForEvent (id : Nat) (event : Nat)
  | connect2Group (id : Nat) (publication : String) (config : RTMFPConfig)
      (group : RTMFPGroupConfig) (audioReliable : Bool) (videoReliable : Bool)
      (fallbackUrl : Option String)
  | connect2Peer (id : Nat) (peerId : String) (publication : String)
      (blocking : Nat)
  | publishP2P (id : Nat) (publication : String) (audioReliable : Bool)
      (videoReliable : Bool) (blocking : Nat)
  | publish (id : Nat) (publication : String) (audioReliable : Bool)
      (videoReliable : Bool) (blocking : Nat)
  | play (id : Nat) (publication : String)
  | close (id : Nat) (blocking : Nat)
deriving Repr, DecidableEq

/-- Oracle for the external librtmfp engine: the results its calls return to
the adapter.  RTMFP_Connect returns an unsigned int session id, the five
stream operations return an unsigned short stream id, RTMFP_Write and
RTMFP_Read return int byte counts or negatives. -/
structure Engine where
  publicationOf : String → String
  connectResult : String → Nat
  waitForEventResult : Nat → Nat → Int
  connect2GroupResult : Nat
  connect2PeerResult : Nat
  publishP2PResult : Nat
  publishResult : Nat
  playResult : Nat
  writeResult : Nat → List Nat → Int → Int
  readResult : Nat → Nat → Int → Int

/-- Result of rtmfp_log (librtmfp.c lines 69-86): the av_log level and the
level tag prepended to the message. -/
structure LogResult where
  avLevel : Int
  strlevel : String
deriving Repr, DecidableEq

/-- rtmfp_log, librtmfp.c lines 69-86: maps the engine's numeric log level to
an av_log level and a tag.  The C switch sends `default:` and `case 1:` to
the same FATAL arm. -/
def rtmfp_log (level : Nat) : LogResult :=
  if level = 2 ∨ level = 3 then ⟨AV_LOG_ERROR, "ERROR"⟩
  else if level = 4 then ⟨AV_LOG_WARNING, "WARN"⟩
  else if level = 5 ∨ level = 6 then ⟨AV_LOG_INFO, "INFO"⟩
  else if level = 7 then ⟨AV_LOG_DEBUG, "DEBUG"⟩
  else if level = 8 then ⟨AV_LOG_TRACE, "TRACE"⟩
  else ⟨AV_LOG_FATAL, "FATAL"⟩

/-- rtmfp_close, librtmfp.c lines 88-95: calls RTMFP_Close(ctx->id, 0) and
returns 0 unconditionally. -/
def rtmfp_close (ctx : LibRTMFPContext) : Int × List EngineCall :=
  (0, [.close ctx.id 0])

/-- rtmfp_write, librtmfp.c lines 178-185: forwards RTMFP_Write's result,
replacing a negative result by AVERROR(EIO). -/
def rtmfp_write (ctx : LibRTMFPContext) (eng : Engine) (buf : List Nat)
    (size : Int) : Int :=
  let res := eng.writeResult ctx.id buf size
  if res < 0 then AVERROR eioErrno else res

/-- rtmfp_read, librtmfp.c lines 187-195: forwards RTMFP_Read's result,
replacing a negative result by AVERROR(EIO).  (The output buffer pointer is
not part of the value-level model.) -/
def rtmfp_read (ctx : LibRTMFPContext) (eng : Engine) (size : Int) : Int :=
  let res := eng.readResult ctx.streamid ctx.id size
  if res < 0 then AVERROR eioErrno else res

/-- The outcome of rtmfp_open: the C return value, the context and URLContext
after the call, and the ordered engine calls issued. -/
structure OpenResult where
  ret : Int
  ctx : LibRTMFPContext
  s : URLContext
  calls : List EngineCall
deriving Repr

/-- librtmfp.c lines 171-175: the tail of rtmfp_open after the selected
stream operation has stored its result in ctx->streamid. -/
def finishStream (ctx : LibRTMFPContext) (s : URLContext)
    (calls : List EngineCall) : OpenResult :=
  if ctx.streamid = 0 then ⟨-1, ctx, s, calls⟩
  else ⟨0, ctx, { s with is_streamed := 1 }, calls⟩

/-- rtmfp_open, librtmfp.c lines 109-176.  `avLogLevel` is the global
av_log_get_level() value; the switch at lines 114-123 translates it to the
engine's numeric level (default and AV_LOG_INFO share the arm yielding 6). -/
def rtmfp_open (ctx0 : LibRTMFPContext) (s : URLContext) (uri : String)
    (flags : Nat) (avLogLevel : Int) (eng : Engine) : OpenResult :=
  let level : Int :=
    if avLogLevel = AV_LOG_FATAL then 1
    else if avLogLevel = AV_LOG_ERROR then 3
    else if avLogLevel = AV_LOG_WARNING then 4
    else if avLogLevel = AV_LOG_DEBUG then 7
    else if avLogLevel = AV_LOG_VERBOSE then 8
    else if avLogLevel = AV_LOG_TRACE then 8
    else 6
  let ctx1 : LibRTMFPContext := { ctx0 with
    rtmfp := { RTMFPConfig.init with
      isBlocking := 1, swfUrl := ctx0.swfurl, app := ctx0.app,
      pageUrl := ctx0.pageurl, flashVer := ctx0.flashver, host := ctx0.host,
      hostIPv6 := ctx0.hostipv6 },
    group := RTMFPGroupConfig.init,
    publication := eng.publicationOf uri,
    id := eng.connectResult uri }
  let calls1 : List EngineCall :=
    [.setIntParameter "socketReceiveSize" ctx0.socketreceivesize,
     .setIntParameter "socketSendSize" ctx0.socketsendsize,
     .setIntParameter "timeoutFallback" (ctx0.fallbacktimeout : Int),
     .setIntParameter "logLevel" level,
     .logSetCallback, .interruptSetCallback, .getPublicationAndUrl uri,
     .connect uri]
  if ctx1.id = 0 then ⟨-1, ctx1, s, calls1⟩
  else
    let calls2 := calls1 ++ [.waitForEvent ctx1.id RTMFP_CONNECTED]
    if eng.waitForEventResult ctx1.id RTMFP_CONNECTED = 0 then
      ⟨-1, ctx1, s, calls2⟩
    else
      match ctx1.netgroup with
      | some g =>
          let grp : RTMFPGroupConfig :=
            { netGroup := some g,
              availabilityUpdatePeriod := ctx1.updateperiod,
              windowDuration := ctx1.windowduration,
              pushLimit := ctx1.pushlimit,
              isPublisher := decide (1 < Nat.land flags AVIO_FLAG_WRITE),
              isBlocking := 1,
              disableRateControl := ctx1.disableratectl }
          finishStream
            { ctx1 with group := grp, streamid := eng.connect2GroupResult } s
            (calls2 ++ [.connect2Group ctx1.id ctx1.publication ctx1.rtmfp grp
              (!ctx1.audiounbuffered) (!ctx1.videounbuffered) ctx1.fallbackurl])
      | none =>
        match ctx1.peerid with
        | some pid =>
            finishStream { ctx1 with streamid := eng.connect2PeerResult } s
              (calls2 ++ [.connect2Peer ctx1.id pid ctx1.publication 1])
        | none =>
            if ctx1.p2ppublishing then
              finishStream { ctx1 with streamid := eng.publishP2PResult } s
                (calls2 ++ [.publishP2P ctx1.id ctx1.publication
                  (!ctx1.audiounbuffered) (!ctx1.videounbuffered) 1])
            else if Nat.land flags AVIO_FLAG_WRITE ≠ 0 then
              finishStream { ctx1 with streamid := eng.publishResult } s
                (calls2 ++ [.publish ctx1.id ctx1.publication
                  (!ctx1.audiounbuffered) (!ctx1.videounbuffered) 1])
            else
              finishStream { ctx1 with streamid := eng.playResult } s
                (calls2 ++ [.play ctx1.id ctx1.publication])

/-- The stream-id result of the one stream operation rtmfp_open selects at
librtmfp.c lines 153-169: netgroup takes priority, then peerid, then
p2ppublishing, then the AVIO write flag, else play. -/
def selectedStreamResult (ctx : LibRTMFPContext) (flags : Nat)
    (eng : Engine) : Nat :=
  if ctx.netgroup.isSome then eng.connect2GroupResult
  else if ctx.peerid.isSome then eng.connect2PeerResult
  else if ctx.p2ppublishing then eng.publishP2PResult
  else if Nat.land flags AVIO_FLAG_WRITE ≠ 0 then eng.publishResult
  else eng.playResult

/-- The five stream operations among engine calls. -/
def EngineCall.isStreamOp : EngineCall → Bool
  | .connect2Group _ _ _ _ _ _ _ => true
  | .connect2Peer _ _ _ _ => true
  | .publishP2P _ _ _ _ _ => true
  | .publish _ _ _ _ _ => true
  | .play _ _ => true
  | _ => false

/-- Recognizes RTMFP_WaitForEvent calls. -/
def EngineCall.isWaitForEvent : EngineCall → Bool
  | .waitForEvent _ _ => true
  | _ => false

/-- The kind of a stream operation, for stating which one an open invoked. -/
inductive StreamKind where
  | group | peer | p2p | publishing | playing
deriving Repr, DecidableEq

/-- The stream-operation kind of an engine call, none for other calls. -/
def EngineCall.streamKind : EngineCall → Option StreamKind
  | .connect2Group _ _ _ _ _ _ _ => some .group
  | .connect2Peer _ _ _ _ => some .peer
  | .publishP2P _ _ _ _ _ => some .p2p
  | .publish _ _ _ _ _ => some .publishing
  | .play _ _ => some .playing
  | _ => none

/-- The stream-operation kind rtmfp_open's priority chain selects. -/
def expectedStreamKind (ctx : LibRTMFPContext) (flags : Nat) : StreamKind :=
  if ctx.netgroup.isSome then .group
  else if ctx.peerid.isSome then .peer
  else if ctx.p2ppublishing then .p2p
  else if Nat.land flags AVIO_FLAG_WRITE ≠ 0 then .publishing
  else .playing

/-- The group configuration passed to RTMFP_Connect2Group, none for all
other calls. -/
def EngineCall.groupConfigArg : EngineCall → Option RTMFPGroupConfig
  | .connect2Group _ _ _ g _ _ _ => some g
  | _ => none

/-- The (audioReliable, videoReliable) buffering flags of the three calls
that take them: RTMFP_Connect2Group, RTMFP_PublishP2P, RTMFP_Publish. -/
def EngineCall.bufferFlagsArg : EngineCall → Option (Bool × Bool)
  | .connect2Group _ _ _ _ a v _ => some (a, v)
  | .publishP2P _ _ a v _ => some (a, v)
  | .publish _ _ a v _ => some (a, v)
  | _ => none

/-- The fallback-URL argument of RTMFP_Connect2Group, the only engine call
that receives one; none for all other calls. -/
def EngineCall.fallbackUrlArg : EngineCall → Option (Option String)
  | .connect2Group _ _ _ _ _ _ fb => some fb
  | _ => none

/-- The AVOption types used by the librtmfp options table. -/
inductive AVOptType where
  | typeInt | typeBool | typeString
deriving Repr, DecidableEq

/-- One row of the AVOption table: name, type, integer default (0 for
strings, whose default is NULL), minimum and maximum. -/
structure AVOption where
  name : String
  type : AVOptType
  dflt : Int
  min : Int
  max : Int
deriving Repr, DecidableEq

/-- The options table of librtmfp.c lines 200-222 (name, type, default,
range; the help strings and DEC/ENC flags carry no behavior). -/
def options : List AVOption :=
  [⟨"socketreceivesize", .typeInt, 212992, 0, 0x0FFFFFFF⟩,
   ⟨"socketsendsize", .typeInt, 212992, 0, 0x0FFFFFFF⟩,
   ⟨"audiounbuffered", .typeBool, 0, 0, 1⟩,
   ⟨"videounbuffered", .typeBool, 0, 0, 1⟩,
   ⟨"peerid", .typeString, 0, 0, 0⟩,
   ⟨"p2ppublishing", .typeBool, 0, 0, 1⟩,
   ⟨"netgroup", .typeString, 0, 0, 0⟩,
   ⟨"fallbackurl", .typeString, 0, 0, 0⟩,
   ⟨"fallbacktimeout", .typeInt, 8000, 0, 120000⟩,
   ⟨"disableratecontrol", .typeBool, 0, 0, 1⟩,
   ⟨"pushlimit", .typeInt, 4, 0, 255⟩,
   ⟨"updateperiod", .typeInt, 100, 100, 10000⟩,
   ⟨"windowduration", .typeInt, 8000, 1000, 60000⟩,
   ⟨"rtmfp_swfurl", .typeString, 0, 0, 0⟩,
   ⟨"rtmfp_app", .typeString, 0, 0, 0⟩,
   ⟨"rtmfp_pageurl", .typeString, 0, 0, 0⟩,
   ⟨"rtmfp_flashver", .typeString, 0, 0, 0⟩,
   ⟨"rtmfp_host", .typeString, 0, 0, 0⟩,
   ⟨"rtmfp_hostipv6", .typeString, 0, 0, 0⟩]

/-- Modelled from the spec: the NetGroup fallback-to-unicast state inside the
librtmfp engine (not part of src/, which only configures it).  `opened`
says a unicast fallback play session is currently open, `everOpened` that one
was ever opened, `closedCount` how many times one was closed. -/
structure FallbackState where
  opened : Bool
  everOpened : Bool
  closedCount : Nat
deriving Repr, DecidableEq

/-- Modelled from the spec: before any time passes no fallback session
exists. -/
def FallbackState.start : FallbackState := ⟨false, false, 0⟩

/-- Modelled from the spec: one millisecond tick of the engine's fallback
logic at time `t`.  `hasUrl` says a fallbackurl is configured, `timeout` is
the fallbacktimeout in ms, `active t` whether NetGroup delivery has reached
Active at time `t`.  If the fallback session is open and the NetGroup is
Active it is torn down; otherwise, if a fallback URL is configured, the
NetGroup is still not Active, the timeout has elapsed and no fallback was
started before, the unicast fallback session is opened. -/
def fallbackStep (hasUrl : Bool) (timeout : Nat) (active : Nat → Bool)
    (t : Nat) (st : FallbackState) : FallbackState :=
  if st.opened then
    if active t then ⟨false, st.everOpened, st.closedCount + 1⟩ else st
  else if hasUrl && !active t && decide (timeout ≤ t) && !st.everOpened then
    ⟨true, true, st.closedCount⟩
  else st

/-- Modelled from the spec: the fallback state after the first `n`
milliseconds (ticks 0 .. n-1). -/
def fallbackRun (hasUrl : Bool) (timeout : Nat) (active : Nat → Bool) :
    Nat → FallbackState
  | 0 => FallbackState.start
  | n + 1 => fallbackStep hasUrl timeout active n
      (fallbackRun hasUrl timeout active n)

/-- A context holding the integer/boolean defaults of the options table, no
strings set, engine-written fields zeroed. -/
def defaultCtx : LibRTMFPContext :=
  { rtmfp := RTMFPConfig.init, id := 0,
    audiounbuffered := false, videounbuffered := false, p2ppublishing := false,
    peerid := none, publication := "", streamid := 0,
    swfurl := none, app := none, pageurl := none, flashver := none,
    host := none, hostipv6 := none,
    socketreceivesize := 212992, socketsendsize := 212992,
    group := RTMFPGroupConfig.init, netgroup := none,
    updateperiod := 100, windowduration := 8000, pushlimit := 4,
    fallbackurl := none, fallbacktimeout := 8000, disableratectl := false }

/-- defaultCtx with a netgroup and a fallback URL configured. -/
def groupCtx : LibRTMFPContext :=
  { defaultCtx with netgroup := some "G1", fallbackurl := some "rtmp://fb" }

/-- An engine oracle on which every call succeeds. -/
def okEngine : Engine :=
  { publicationOf := fun _ => "mystream",
    connectResult := fun _ => 7,
    waitForEventResult := fun _ _ => 1,
    connect2GroupResult := 9,
    connect2PeerResult := 10,
    publishP2PResult := 11,
    publishResult := 12,
    playResult := 13,
    writeResult := fun _ _ size => size,
    readResult := fun _ _ _ => -2 }

/-- Auxiliary: once the NetGroup has not been Active at any time up to
`timeout`, the spec-modelled fallback engine is still in its start state at
every time up to `timeout` (the fallback timer has not yet elapsed). -/
theorem fallbackRun_start_of_le (timeout : Nat) (active : Nat → Bool)
    (h : ∀ u, u ≤ timeout → active u = false) :
    ∀ m, m ≤ timeout → fallbackRun true timeout active m = FallbackState.start := by
  intro m
  induction m with
  | zero => intro _; rfl
  | succ k ih =>
    intro hk
    have hk' : k ≤ timeout := by omega
    have hlt : ¬ timeout ≤ k := by omega
    rw [fallbackRun, ih hk']
    simp [fallbackStep, FallbackState.start, h k hk', hlt]

/-- Auxiliary: with a fallback URL configured and the NetGroup not Active
through time `timeout`, the fallback unicast session is open right after the
timeout elapses. -/
theorem fallbackRun_opens (timeout : Nat) (active : Nat → Bool)
    (h : ∀ u, u ≤ timeout → active u = false) :
    fallbackRun true timeout active (timeout + 1) = ⟨true, true, 0⟩ := by
  rw [fallbackRun, fallbackRun_start_of_le timeout active h timeout le_rfl]
  simp [fallbackStep, FallbackState.start, h timeout le_rfl]

/-- Auxiliary invariant of the spec-modelled fallback engine: an open session
was opened at some point, a state that never opened is the start state, and
the number of closes plus the open session never exceeds one. -/
theorem fallback_inv (hasUrl : Bool) (timeout : Nat) (active : Nat → Bool) :
    ∀ n, ((fallbackRun hasUrl timeout active n).opened = true →
            (fallbackRun hasUrl timeout active n).everOpened = true)
       ∧ ((fallbackRun hasUrl timeout active n).everOpened = false →
            fallbackRun hasUrl timeout active n = FallbackState.start)
       ∧ (fallbackRun hasUrl timeout active n).closedCount +
           (if (fallbackRun hasUrl timeout active n).opened then 1 else 0) ≤ 1 := by
  intro n
  induction n with
  | zero => simp [fallbackRun, FallbackState.start]
  | succ k ih =>
    obtain ⟨i1, i2, i3⟩ := ih
    rw [fallbackRun]
    by_cases ho : (fallbackRun hasUrl timeout active k).opened
    · have he := i1 ho
      by_cases ha : active k
      · have hstep : fallbackStep hasUrl timeout active k
            (fallbackRun hasUrl timeout active k) =
            ⟨false, (fallbackRun hasUrl timeout active k).everOpened,
             (fallbackRun hasUrl timeout active k).closedCount + 1⟩ := by
          simp [fallbackStep, ho, ha]
        rw [hstep]
        simp [he]
        simp [ho] at i3
        omega
      · have hstep : fallbackStep hasUrl timeout active k
            (fallbackRun hasUrl timeout active k) =
            fallbackRun hasUrl timeout active k := by
          simp [fallbackStep, ho, ha]
        rw [hstep]
        exact ⟨i1, i2, i3⟩
    · by_cases hev : (fallbackRun hasUrl timeout active k).everOpened
      · have hstep : fallbackStep hasUrl timeout active k
            (fallbackRun hasUrl timeout active k) =
            fallbackRun hasUrl timeout active k := by
          simp [fallbackStep, ho, hev]
        rw [hstep]
        exact ⟨i1, i2, i3⟩
      · have hstart := i2 (by simpa using hev)
        by_cases hc : hasUrl && !active k && decide (timeout ≤ k)
        · have hstep : fallbackStep hasUrl timeout active k
              (fallbackRun hasUrl timeout active k) =
              ⟨true, true, (fallbackRun hasUrl timeout active k).closedCount⟩ := by
            simp [fallbackStep, ho, hev, hc]
          rw [hstep, hstart]
          simp [FallbackState.start]
        · have hstep : fallbackStep hasUrl timeout active k
              (fallbackRun hasUrl timeout active k) =
              fallbackRun hasUrl timeout active k := by
            simp [fallbackStep, ho, hc]
          rw [hstep]
          exact ⟨i1, i2, i3⟩

/-- Auxiliary: when the fallback session is open and the NetGroup reaches
Active, the next state has the session torn down and exactly one close. -/
theorem fallback_closes (hasUrl : Bool) (timeout : Nat) (active : Nat → Bool)
    (n : Nat) (ho : (fallbackRun hasUrl timeout active n).opened = true)
    (ha : active n = true) :
    fallbackRun hasUrl timeout active (n + 1) = ⟨false, true, 1⟩ := by
  obtain ⟨i1, i2, i3⟩ := fallback_inv hasUrl timeout active n
  have he := i1 ho
  have hc0 : (fallbackRun hasUrl timeout active n).closedCount = 0 := by
    simp [ho] at i3; omega
  rw [fallbackRun]
  simp [fallbackStep, ho, ha, he, hc0]

/-- Auxiliary: once the fallback session has been opened and torn down, the
fallback engine never changes state again (no second open, no second
close). -/
theorem fallback_stable (hasUrl : Bool) (timeout : Nat) (active : Nat → Bool)
    (n m : Nat) (hnm : n ≤ m)
    (ho : (fallbackRun hasUrl timeout active n).opened = false)
    (he : (fallbackRun hasUrl timeout active n).everOpened = true) :
    fallbackRun hasUrl timeout active m = fallbackRun hasUrl timeout active n := by
  induction m, hnm using Nat.le_induction with
  | base => rfl
  | succ k hk ih =>
    rw [fallbackRun, ih]
    simp [fallbackStep, ho, he]

/-- C1: rtmfp_open returns 0 exactly when RTMFP_Connect returns a nonzero
session id, RTMFP_WaitForEvent(RTMFP_CONNECTED) returns nonzero, and the
selected stream operation returns a nonzero streamid; otherwise it returns
the negative error -1, issuing no RTMFP_WaitForEvent when the connect
failed and no stream operation when the connect or the wait failed. -/
theorem open_ret_zero_iff_engine_nonzero (ctx0 : LibRTMFPContext)
    (s : URLContext) (uri : String) (flags : Nat) (avLogLevel : Int)
    (eng : Engine) :
    ((rtmfp_open ctx0 s uri flags avLogLevel eng).ret = 0 ↔
      (eng.connectResult uri ≠ 0 ∧
       eng.waitForEventResult (eng.connectResult uri) RTMFP_CONNECTED ≠ 0 ∧
       selectedStreamResult ctx0 flags eng ≠ 0))
  ∧ ((rtmfp_open ctx0 s uri flags avLogLevel eng).ret = 0 ∨
     (rtmfp_open ctx0 s uri flags avLogLevel eng).ret = -1)
  ∧ ((rtmfp_open ctx0 s uri flags avLogLevel eng).calls.countP
        EngineCall.isWaitForEvent =
      if eng.connectResult uri = 0 then 0 else 1)
  ∧ ((rtmfp_open ctx0 s uri flags avLogLevel eng).calls.countP
        EngineCall.isStreamOp =
      if eng.connectResult uri = 0 ∨
         eng.waitForEventResult (eng.connectResult uri) RTMFP_CONNECTED = 0
      then 0 else 1) := by
  by_cases h1 : eng.connectResult uri = 0
  · simp [rtmfp_open, h1, List.countP_cons, EngineCall.isWaitForEvent,
      EngineCall.isStreamOp]
  · by_cases h2 : eng.waitForEventResult (eng.connectResult uri) RTMFP_CONNECTED = 0
    · simp [rtmfp_open, h1, h2, List.countP_cons, EngineCall.isWaitForEvent,
        EngineCall.isStreamOp]
    · rcases hng : ctx0.netgroup with _ | g
      · rcases hp : ctx0.peerid with _ | pid
        · by_cases hpp : ctx0.p2ppublishing
          · simp [rtmfp_open, selectedStreamResult, finishStream, h1, h2, hng,
              hp, hpp, apply_ite OpenResult.ret, apply_ite OpenResult.calls,
              List.countP_cons, EngineCall.isWaitForEvent,
              EngineCall.isStreamOp] <;> tauto
          · by_cases hw : Nat.land flags AVIO_FLAG_WRITE ≠ 0
            · simp [rtmfp_open, selectedStreamResult, finishStream, h1, h2,
                hng, hp, hpp, hw, apply_ite OpenResult.ret,
                apply_ite OpenResult.calls, List.countP_cons,
                EngineCall.isWaitForEvent, EngineCall.isStreamOp] <;> tauto
            · simp [rtmfp_open, selectedStreamResult, finishStream, h1, h2,
                hng, hp, hpp, hw, apply_ite OpenResult.ret,
                apply_ite OpenResult.calls, List.countP_cons,
                EngineCall.isWaitForEvent, EngineCall.isStreamOp] <;> tauto
        · simp [rtmfp_open, selectedStreamResult, finishStream, h1, h2, hng,
            hp, apply_ite OpenResult.ret, apply_ite OpenResult.calls,
            List.countP_cons, EngineCall.isWaitForEvent,
            EngineCall.isStreamOp] <;> tauto
      · simp [rtmfp_open, selectedStreamResult, finishStream, h1, h2, hng,
          apply_ite OpenResult.ret, apply_ite OpenResult.calls,
          List.countP_cons, EngineCall.isWaitForEvent,
          EngineCall.isStreamOp] <;> tauto

/-- C2: rtmfp_close returns 0 for every context, so closing after a failure
or closing the same handle a second time yields the same benign 0 result
(the function is state-independent: each call just issues RTMFP_Close and
returns 0). -/
theorem close_returns_zero (ctx : LibRTMFPContext) :
    (rtmfp_close ctx).1 = 0 ∧ (rtmfp_close ctx).2 = [EngineCall.close ctx.id 0] :=
  ⟨rfl, rfl⟩

/-- C3: rtmfp_write and rtmfp_read return the engine's result unchanged when
it is non-negative and AVERROR(EIO) when it is negative, and AVERROR(EIO) is
the only negative value either can return. -/
theorem read_write_result_mapping (ctx : LibRTMFPContext) (eng : Engine)
    (buf : List Nat) (size : Int) :
    (0 ≤ eng.writeResult ctx.id buf size →
      rtmfp_write ctx eng buf size = eng.writeResult ctx.id buf size)
  ∧ (eng.writeResult ctx.id buf size < 0 →
      rtmfp_write ctx eng buf size = AVERROR eioErrno)
  ∧ (0 ≤ eng.readResult ctx.streamid ctx.id size →
      rtmfp_read ctx eng size = eng.readResult ctx.streamid ctx.id size)
  ∧ (eng.readResult ctx.streamid ctx.id size < 0 →
      rtmfp_read ctx eng size = AVERROR eioErrno)
  ∧ (rtmfp_write ctx eng buf size < 0 →
      rtmfp_write ctx eng buf size = AVERROR eioErrno)
  ∧ (rtmfp_read ctx eng size < 0 →
      rtmfp_read ctx eng size = AVERROR eioErrno) := by
  have hw : rtmfp_write ctx eng buf size =
      if eng.writeResult ctx.id buf size < 0 then AVERROR eioErrno
      else eng.writeResult ctx.id buf size := rfl
  have hr : rtmfp_read ctx eng size =
      if eng.readResult ctx.streamid ctx.id size < 0 then AVERROR eioErrno
      else eng.readResult ctx.streamid ctx.id size := rfl
  rw [hw, hr]
  simp only [AVERROR, eioErrno]
  split_ifs <;> omega

/-- C4: the pushlimit option is an integer option with default 4 and range
0..255, and when a netgroup is configured the context value is passed
unchanged as the pushLimit of the group configuration handed to
RTMFP_Connect2Group (the only call receiving a group configuration). -/
theorem pushlimit_option_and_passthrough (ctx0 : LibRTMFPContext)
    (s : URLContext) (uri : String) (flags : Nat) (avLogLevel : Int)
    (eng : Engine) (g : String)
    (hg : ctx0.netgroup = some g)
    (h1 : eng.connectResult uri ≠ 0)
    (h2 : eng.waitForEventResult (eng.connectResult uri) RTMFP_CONNECTED ≠ 0) :
    options.find? (fun o => o.name == "pushlimit") =
      some ⟨"pushlimit", .typeInt, 4, 0, 255⟩
  ∧ (rtmfp_open ctx0 s uri flags avLogLevel eng).calls.filterMap
      EngineCall.groupConfigArg =
      [(rtmfp_open ctx0 s uri flags avLogLevel eng).ctx.group]
  ∧ (rtmfp_open ctx0 s uri flags avLogLevel eng).ctx.group.pushLimit =
      ctx0.pushlimit := by
  refine ⟨by decide, ?_, ?_⟩ <;>
    simp [rtmfp_open, finishStream, h1, h2, hg, apply_ite OpenResult.calls,
      apply_ite OpenResult.ctx, EngineCall.groupConfigArg]

/-- C4 witness: the theorem applied to a concrete netgroup context and an
all-succeeding engine. -/
theorem pushlimit_option_and_passthrough_witness :
    options.find? (fun o => o.name == "pushlimit") =
      some ⟨"pushlimit", .typeInt, 4, 0, 255⟩
  ∧ (rtmfp_open groupCtx ⟨0⟩ "rtmfp://a/live/s" 2 32 okEngine).calls.filterMap
      EngineCall.groupConfigArg =
      [(rtmfp_open groupCtx ⟨0⟩ "rtmfp://a/live/s" 2 32 okEngine).ctx.group]
  ∧ (rtmfp_open groupCtx ⟨0⟩ "rtmfp://a/live/s" 2 32 okEngine).ctx.group.pushLimit =
      groupCtx.pushlimit :=
  pushlimit_option_and_passthrough groupCtx ⟨0⟩ "rtmfp://a/live/s" 2 32
    okEngine "G1" rfl (by decide) (by decide)

/-- C5: every engine call that carries audio/video buffering flags
(RTMFP_Connect2Group, RTMFP_PublishP2P, RTMFP_Publish) receives exactly the
logical negations of the audiounbuffered and videounbuffered options. -/
theorem buffer_flags_are_negations (ctx0 : LibRTMFPContext) (s : URLContext)
    (uri : String) (flags : Nat) (avLogLevel : Int) (eng : Engine)
    (p : Bool × Bool)
    (hp : p ∈ (rtmfp_open ctx0 s uri flags avLogLevel eng).calls.filterMap
      EngineCall.bufferFlagsArg) :
    p = (!ctx0.audiounbuffered, !ctx0.videounbuffered) := by
  by_cases h1 : eng.connectResult uri = 0
  · simp [rtmfp_open, h1, EngineCall.bufferFlagsArg] at hp
  · by_cases h2 : eng.waitForEventResult (eng.connectResult uri) RTMFP_CONNECTED = 0
    · simp [rtmfp_open, h1, h2, EngineCall.bufferFlagsArg] at hp
    · rcases hng : ctx0.netgroup with _ | g
      · rcases hpd : ctx0.peerid with _ | pid
        · by_cases hpp : ctx0.p2ppublishing
          · simp [rtmfp_open, finishStream, h1, h2, hng, hpd, hpp,
              apply_ite OpenResult.calls, EngineCall.bufferFlagsArg] at hp
            exact hp
          · by_cases hw : Nat.land flags AVIO_FLAG_WRITE ≠ 0
            · simp [rtmfp_open, finishStream, h1, h2, hng, hpd, hpp, hw,
                apply_ite OpenResult.calls, EngineCall.bufferFlagsArg] at hp
              exact hp
            · simp [rtmfp_open, finishStream, h1, h2, hng, hpd, hpp, hw,
                apply_ite OpenResult.calls, EngineCall.bufferFlagsArg] at hp
        · simp [rtmfp_open, finishStream, h1, h2, hng, hpd,
            apply_ite OpenResult.calls, EngineCall.bufferFlagsArg] at hp
      · simp [rtmfp_open, finishStream, h1, h2, hng,
          apply_ite OpenResult.calls, EngineCall.bufferFlagsArg] at hp
        exact hp

/-- C5 witness: with both unbuffered options at their default false, the
group-connect call of a concrete open carries flags (true, true). -/
theorem buffer_flags_are_negations_witness :
    (true, true) = (!groupCtx.audiounbuffered, !groupCtx.videounbuffered) :=
  buffer_flags_are_negations groupCtx ⟨0⟩ "rtmfp://a/live/s" 2 32 okEngine
    (true, true) (by decide)

/-- C6: rtmfp_log maps engine level 1 to FATAL, 2 and 3 to ERROR, 4 to WARN,
5 and 6 to INFO, 7 to DEBUG, 8 to TRACE, and every level outside 1..8 to
FATAL. -/
theorem log_level_mapping :
    rtmfp_log 1 = ⟨AV_LOG_FATAL, "FATAL"⟩
  ∧ rtmfp_log 2 = ⟨AV_LOG_ERROR, "ERROR"⟩
  ∧ rtmfp_log 3 = ⟨AV_LOG_ERROR, "ERROR"⟩
  ∧ rtmfp_log 4 = ⟨AV_LOG_WARNING, "WARN"⟩
  ∧ rtmfp_log 5 = ⟨AV_LOG_INFO, "INFO"⟩
  ∧ rtmfp_log 6 = ⟨AV_LOG_INFO, "INFO"⟩
  ∧ rtmfp_log 7 = ⟨AV_LOG_DEBUG, "DEBUG"⟩
  ∧ rtmfp_log 8 = ⟨AV_LOG_TRACE, "TRACE"⟩
  ∧ ∀ lvl : Nat, lvl < 1 ∨ 8 < lvl → rtmfp_log lvl = ⟨AV_LOG_FATAL, "FATAL"⟩ := by
  refine ⟨by decide, by decide, by decide, by decide, by decide, by decide,
    by decide, by decide, fun lvl h => ?_⟩
  have h2 : lvl ≠ 2 := by omega
  have h3 : lvl ≠ 3 := by omega
  have h4 : lvl ≠ 4 := by omega
  have h5 : lvl ≠ 5 := by omega
  have h6 : lvl ≠ 6 := by omega
  have h7 : lvl ≠ 7 := by omega
  have h8 : lvl ≠ 8 := by omega
  simp [rtmfp_log, h2, h3, h4, h5, h6, h7, h8]

/-- C8: every open sets isBlocking to 1 on the session configuration in the
context regardless of the caller's flags, every group configuration passed
to the engine has isBlocking 1, and a successful netgroup open leaves
isBlocking 1 on the stored group configuration. -/
theorem blocking_mode_configured (ctx0 : LibRTMFPContext) (s : URLContext)
    (uri : String) (flags : Nat) (avLogLevel : Int) (eng : Engine) :
    (rtmfp_open ctx0 s uri flags avLogLevel eng).ctx.rtmfp.isBlocking = 1
  ∧ (∀ gc, gc ∈ (rtmfp_open ctx0 s uri flags avLogLevel eng).calls.filterMap
      EngineCall.groupConfigArg → gc.isBlocking = 1)
  ∧ (∀ g, ctx0.netgroup = some g →
      (rtmfp_open ctx0 s uri flags avLogLevel eng).ret = 0 →
      (rtmfp_open ctx0 s uri flags avLogLevel eng).ctx.group.isBlocking = 1) := by
  by_cases h1 : eng.connectResult uri = 0
  · simp [rtmfp_open, h1, EngineCall.groupConfigArg]
  · by_cases h2 : eng.waitForEventResult (eng.connectResult uri) RTMFP_CONNECTED = 0
    · simp [rtmfp_open, h1, h2, EngineCall.groupConfigArg]
    · rcases hng : ctx0.netgroup with _ | g
      · rcases hpd : ctx0.peerid with _ | pid
        · by_cases hpp : ctx0.p2ppublishing
          · simp [rtmfp_open, finishStream, h1, h2, hng, hpd, hpp,
              apply_ite OpenResult.calls, apply_ite OpenResult.ctx,
              apply_ite OpenResult.ret, EngineCall.groupConfigArg]
          · by_cases hw : Nat.land flags AVIO_FLAG_WRITE ≠ 0
            · simp [rtmfp_open, finishStream, h1, h2, hng, hpd, hpp, hw,
                apply_ite OpenResult.calls, apply_ite OpenResult.ctx,
                apply_ite OpenResult.ret, EngineCall.groupConfigArg]
            · simp [rtmfp_open, finishStream, h1, h2, hng, hpd, hpp, hw,
                apply_ite OpenResult.calls, apply_ite OpenResult.ctx,
                apply_ite OpenResult.ret, EngineCall.groupConfigArg]
        · simp [rtmfp_open, finishStream, h1, h2, hng, hpd,
            apply_ite OpenResult.calls, apply_ite OpenResult.ctx,
            apply_ite OpenResult.ret, EngineCall.groupConfigArg]
      · simp [rtmfp_open, finishStream, h1, h2, hng,
          apply_ite OpenResult.calls, apply_ite OpenResult.ctx,
          apply_ite OpenResult.ret, EngineCall.groupConfigArg]

/-- C9: when the connect and the wait succeed, exactly one stream operation
is issued, and it is the one the fixed priority chain selects: netgroup
first (overriding peerid, p2ppublishing and the write flag), then peerid,
then p2ppublishing, then the AVIO write flag, else play. -/
theorem one_stream_op_by_priority (ctx0 : LibRTMFPContext) (s : URLContext)
    (uri : String) (flags : Nat) (avLogLevel : Int) (eng : Engine)
    (h1 : eng.connectResult uri ≠ 0)
    (h2 : eng.waitForEventResult (eng.connectResult uri) RTMFP_CONNECTED ≠ 0) :
    (rtmfp_open ctx0 s uri flags avLogLevel eng).calls.filterMap
      EngineCall.streamKind = [expectedStreamKind ctx0 flags] := by
  rcases hng : ctx0.netgroup with _ | g
  · rcases hp : ctx0.peerid with _ | pid
    · by_cases hpp : ctx0.p2ppublishing
      · simp [rtmfp_open, finishStream, expectedStreamKind, h1, h2, hng, hp,
          hpp, apply_ite OpenResult.calls, EngineCall.streamKind]
      · by_cases hw : Nat.land flags AVIO_FLAG_WRITE ≠ 0
        · simp [rtmfp_open, finishStream, expectedStreamKind, h1, h2, hng, hp,
            hpp, hw, apply_ite OpenResult.calls, EngineCall.streamKind]
        · simp [rtmfp_open, finishStream, expectedStreamKind, h1, h2, hng, hp,
            hpp, hw, apply_ite OpenResult.calls, EngineCall.streamKind]
    · simp [rtmfp_open, finishStream, expectedStreamKind, h1, h2, hng, hp,
        apply_ite OpenResult.calls, EngineCall.streamKind]
  · simp [rtmfp_open, finishStream, expectedStreamKind, h1, h2, hng,
      apply_ite OpenResult.calls, EngineCall.streamKind]

/-- C9 witness: a concrete open with a netgroup configured issues exactly
the group-connect stream operation. -/
theorem one_stream_op_by_priority_witness :
    (rtmfp_open groupCtx ⟨0⟩ "rtmfp://a/live/s" 2 32 okEngine).calls.filterMap
      EngineCall.streamKind = [expectedStreamKind groupCtx 2] :=
  one_stream_op_by_priority groupCtx ⟨0⟩ "rtmfp://a/live/s" 2 32 okEngine
    (by decide) (by decide)

/-- C10: the URLContext after rtmfp_open has is_streamed set to 1 when the
open returned 0 and is unchanged when the open failed. -/
theorem is_streamed_set_on_success (ctx0 : LibRTMFPContext) (s : URLContext)
    (uri : String) (flags : Nat) (avLogLevel : Int) (eng : Engine) :
    (rtmfp_open ctx0 s uri flags avLogLevel eng).s =
      (if (rtmfp_open ctx0 s uri flags avLogLevel eng).ret = 0 then
        { s with is_streamed := 1 } else s) := by
  by_cases h1 : eng.connectResult uri = 0
  · simp [rtmfp_open, h1]
  · by_cases h2 : eng.waitForEventResult (eng.connectResult uri) RTMFP_CONNECTED = 0
    · simp [rtmfp_open, h1, h2]
    · rcases hng : ctx0.netgroup with _ | g
      · rcases hp : ctx0.peerid with _ | pid
        · by_cases hpp : ctx0.p2ppublishing
          · simp [rtmfp_open, finishStream, h1, h2, hng, hp, hpp,
              apply_ite OpenResult.ret, apply_ite OpenResult.s]
          · by_cases hw : Nat.land flags AVIO_FLAG_WRITE ≠ 0
            · simp [rtmfp_open, finishStream, h1, h2, hng, hp, hpp, hw,
                apply_ite OpenResult.ret, apply_ite OpenResult.s]
            · simp [rtmfp_open, finishStream, h1, h2, hng, hp, hpp, hw,
                apply_ite OpenResult.ret, apply_ite OpenResult.s]
        · simp [rtmfp_open, finishStream, h1, h2, hng, hp,
            apply_ite OpenResult.ret, apply_ite OpenResult.s]
      · simp [rtmfp_open, finishStream, h1, h2, hng,
          apply_ite OpenResult.ret, apply_ite OpenResult.s]

/-- C7: the adapter wires fallbacktimeout as the engine parameter
timeoutFallback and hands fallbackurl exactly to the group-connect call; in
the spec-modelled engine, if the NetGroup is not Active within the timeout
and a fallback URL is set the unicast fallback session is opened, the number
of fallback closes never exceeds one, once the NetGroup reaches Active while
the fallback is open the session is torn down with exactly one close, and
after that teardown the fallback state never changes again. -/
theorem fallback_wiring_and_lifecycle (ctx0 : LibRTMFPContext)
    (s : URLContext) (uri : String) (flags : Nat) (avLogLevel : Int)
    (eng : Engine) (g : String)
    (hg : ctx0.netgroup = some g)
    (h1 : eng.connectResult uri ≠ 0)
    (h2 : eng.waitForEventResult (eng.connectResult uri) RTMFP_CONNECTED ≠ 0) :
    EngineCall.setIntParameter "timeoutFallback" (ctx0.fallbacktimeout : Int) ∈
      (rtmfp_open ctx0 s uri flags avLogLevel eng).calls
  ∧ (rtmfp_open ctx0 s uri flags avLogLevel eng).calls.filterMap
      EngineCall.fallbackUrlArg = [ctx0.fallbackurl]
  ∧ (∀ timeout : Nat, ∀ active : Nat → Bool,
      (∀ u, u ≤ timeout → active u = false) →
      fallbackRun true timeout active (timeout + 1) = ⟨true, true, 0⟩)
  ∧ (∀ (hasUrl : Bool) (timeout : Nat) (active : Nat → Bool) (n : Nat),
      (fallbackRun hasUrl timeout active n).closedCount ≤ 1)
  ∧ (∀ (hasUrl : Bool) (timeout : Nat) (active : Nat → Bool) (n : Nat),
      (fallbackRun hasUrl timeout active n).opened = true → active n = true →
      fallbackRun hasUrl timeout active (n + 1) = ⟨false, true, 1⟩)
  ∧ (∀ (hasUrl : Bool) (timeout : Nat) (active : Nat → Bool) (n m : Nat),
      n ≤ m → (fallbackRun hasUrl timeout active n).opened = false →
      (fallbackRun hasUrl timeout active n).everOpened = true →
      fallbackRun hasUrl timeout active m = fallbackRun hasUrl timeout active n) := by
  refine ⟨?_, ?_, fallbackRun_opens, ?_, fallback_closes, fallback_stable⟩
  · simp [rtmfp_open, finishStream, h1, h2, hg, apply_ite OpenResult.calls]
  · simp [rtmfp_open, finishStream, h1, h2, hg, apply_ite OpenResult.calls,
      EngineCall.fallbackUrlArg]
  · intro hasUrl timeout active n
    have h := (fallback_inv hasUrl timeout active n).2.2
    by_cases ho : (fallbackRun hasUrl timeout active n).opened <;>
      simp [ho] at h <;> omega

/-- C7 witness: the theorem applied to a concrete netgroup context with an
all-succeeding engine. -/
theorem fallback_wiring_and_lifecycle_witness :
    EngineCall.setIntParameter "timeoutFallback" (groupCtx.fallbacktimeout : Int) ∈
      (rtmfp_open groupCtx ⟨0⟩ "rtmfp://a/live/s" 2 32 okEngine).calls
  ∧ (rtmfp_open groupCtx ⟨0⟩ "rtmfp://a/live/s" 2 32 okEngine).calls.filterMap
      EngineCall.fallbackUrlArg = [groupCtx.fallbackurl]
  ∧ (∀ timeout : Nat, ∀ active : Nat → Bool,
      (∀ u, u ≤ timeout → active u = false) →
      fallbackRun true timeout active (timeout + 1) = ⟨true, true, 0⟩)
  ∧ (∀ (hasUrl : Bool) (timeout : Nat) (active : Nat → Bool) (n : Nat),
      (fallbackRun hasUrl timeout active n).closedCount ≤ 1)
  ∧ (∀ (hasUrl : Bool) (timeout : Nat) (active : Nat → Bool) (n : Nat),
      (fallbackRun hasUrl timeout active n).opened = true → active n = true →
      fallbackRun hasUrl timeout active (n + 1) = ⟨false, true, 1⟩)
  ∧ (∀ (hasUrl : Bool) (timeout : Nat) (active : Nat → Bool) (n m : Nat),
      n ≤ m → (fallbackRun hasUrl timeout active n).opened = false →
      (fallbackRun hasUrl timeout active n).everOpened = true →
      fallbackRun hasUrl timeout active m = fallbackRun hasUrl timeout active n) :=
  fallback_wiring_and_lifecycle groupCtx ⟨0⟩ "rtmfp://a/live/s" 2 32 okEngine
    "G1" rfl (by decide) (by decide)

end LibRTMFP
